import Mathlib

/-
  Verification of the gRPC server core of purposeinplay/go-commons
  (package grpc, file embedding the server constructor, error classifier,
  panic recovery, debug logging interceptor and listener resolver).

  The Go code is shallowly embedded: Go errors become a record of their
  observable attributes (message text, whether errors.Is(err, context.Canceled)
  holds, and the gRPC status the error exposes to status.Code, if any);
  side effects (LogError, ReportError, LogPanic, ReportPanic, debug log
  entries, handler invocation) are collected as explicit event traces;
  contexts passed to the reporting side channel are recorded by their
  observable shape (detached from the call, timeout in seconds).
-/

set_option autoImplicit false

namespace GoCommonsGRPC

/-- gRPC status codes used by this file (google.golang.org/grpc/codes). -/
inductive Code
  | ok
  | canceled
  | unknown
  | notFound
  | internal
deriving DecidableEq, Repr

/-- The String method of codes.Code for the codes modelled here. -/
def codeString : Code → String
  | .ok => "OK"
  | .canceled => "Canceled"
  | .unknown => "Unknown"
  | .notFound => "NotFound"
  | .internal => "Internal"

/-- A gRPC status: immutable (code, message) pair (google.golang.org/grpc/status). -/
structure Status where
  code : Code
  message : String
deriving DecidableEq, Repr

/-- A Go error value, by its attributes observable in this code:
    `msg` is err.Error(); `isCanceled` is errors.Is(err, context.Canceled)
    (preserved through fmt.Errorf %w wrapping); `sts` is the status the
    error exposes directly to status.Code via the GRPCStatus interface
    (some s for a *status.statusError, none otherwise; a fmt wrapper does
    not expose the inner status to the direct type assertion). -/
structure GoError where
  msg : String
  isCanceled : Bool
  sts : Option Status
deriving DecidableEq, Repr

/-- status.Status.Err: nil for an OK status, otherwise the status as an
    immutable error (its Error() text is the gRPC rendering). -/
def Status.err (s : Status) : Option GoError :=
  if s.code = .ok then none
  else some { msg := "rpc error: code = " ++ codeString s.code ++ " desc = " ++ s.message
            , isCanceled := false
            , sts := some s }

/-- status.Code: OK for nil, the exposed status code for a status error,
    Unknown otherwise. -/
def statusCode : Option GoError → Code
  | none => .ok
  | some e =>
    match e.sts with
    | some s => s.code
    | none => .unknown

/-- fmt %q on a plain string: wrap in double quotes (Go escaping is the
    identity on the quote-free ASCII method and message names used here). -/
def goQuote (s : String) : String := "\"" ++ s ++ "\""

/-- The observable shape of a context handed to a reporting side channel:
    whether it is derived from context.Background() rather than from the
    call's context, and its timeout in seconds. -/
structure ReportCtx where
  detachedFromCall : Bool
  timeoutSeconds : Nat
deriving DecidableEq, Repr

/-- context.WithTimeout(context.Background(), time.Second): a fresh context,
    independent of the call, with a one-second deadline. -/
def detachedCtx1s : ReportCtx := { detachedFromCall := true, timeoutSeconds := 1 }

/-- Go path.Base: last element of the slash-separated path, trailing
    slashes removed; "." for the empty string, "/" for all-slash input. -/
def pathBase (s : String) : String :=
  if s = "" then "."
  else
    let rev := s.toList.reverse.dropWhile (fun c => c = '/')
    let base := rev.takeWhile (fun c => c ≠ '/')
    if base.isEmpty then "/" else String.mk base.reverse

/- ### Interceptor chain assembly (newGRPCServerWithListener, lines 66-98) -/

/-- The four kinds of unary server interceptor that can appear in the
    assembled chain; caller-supplied interceptors are identified by index. -/
inductive InterceptorLabel
  | caller (n : Nat)
  | errorClassifier
  | panicRecovery
  | debugLogging
deriving DecidableEq, Repr

/-- Modelled from the spec: `prependServerOption` (referenced by
    prependErrorHandler / prependPanicHandler / prependDebugInterceptor but
    not among the reviewed files) adds the new interceptor by prepending it
    to the slice, so the newly added interceptor becomes the outermost layer. -/
def prependServerOption (i : InterceptorLabel) (is : List InterceptorLabel) :
    List InterceptorLabel :=
  i :: is

/-- The interceptor-assembly slice of newGRPCServerWithListener: starting
    from the caller-supplied interceptors, prepend the error classifier if an
    ErrorHandler is present, then panic recovery if a PanicHandler is present,
    then debug logging if a debugLogger is present.  The presence booleans
    model the isErrorHandlerNil / isPanicHandlerNil / isDebugLoggerNil guards
    (the capability is non-nil). -/
def newGRPCServerInterceptors (callerInterceptors : List InterceptorLabel)
    (hasErrorHandler hasPanicHandler hasDebugLogger : Bool) :
    List InterceptorLabel :=
  let is1 :=
    if hasErrorHandler then prependServerOption .errorClassifier callerInterceptors
    else callerInterceptors
  let is2 :=
    if hasPanicHandler then prependServerOption .panicRecovery is1
    else is1
  let is3 :=
    if hasDebugLogger then prependServerOption .debugLogging is2
    else is2
  is3

/-- Claim C1: the chain builder prepends the error classifier, then panic
    recovery, then debug logging, each only when its capability is present,
    so the assembled list is Debug, Panic Recovery, Error Classifier, then
    the caller-supplied interceptors in their original order, with absent
    capabilities contributing no element. -/
theorem claim_C1 (callerInterceptors : List InterceptorLabel)
    (hasErrorHandler hasPanicHandler hasDebugLogger : Bool) :
    newGRPCServerInterceptors callerInterceptors
        hasErrorHandler hasPanicHandler hasDebugLogger =
      (if hasDebugLogger then [InterceptorLabel.debugLogging] else []) ++
      (if hasPanicHandler then [InterceptorLabel.panicRecovery] else []) ++
      (if hasErrorHandler then [InterceptorLabel.errorClassifier] else []) ++
      callerInterceptors := by
  cases hasErrorHandler <;> cases hasPanicHandler <;> cases hasDebugLogger <;>
    simp [newGRPCServerInterceptors, prependServerOption]

/- ### Error classifier (handleErr, lines 281-360, and prependErrorHandler,
     lines 362-390) -/

/-- One observable action of the error classifier: a LogError call or a
    ReportError call (recorded with the context it was given). -/
inductive ErrEvent
  | logError (e : GoError)
  | reportError (ctx : ReportCtx) (e : GoError)
deriving DecidableEq, Repr

/-- The ErrorHandler capability, as the pure behavior of its queries:
    IsApplicationError, ErrorToGRPCStatus (a status plus a conversion
    error, nil on success) and ReportError (the error it returns, nil on
    success).  LogError has no return value and is recorded in the trace. -/
structure ErrorHandler where
  isApplicationError : GoError → Bool
  errorToGRPCStatus : GoError → Status × Option GoError
  reportError : ReportCtx → GoError → Option GoError

/-- fmt.Errorf("error to grpc status: %w", toGrpcStatusErr). -/
def wrapConvErr (e : GoError) : GoError :=
  { msg := "error to grpc status: " ++ e.msg
  , isCanceled := e.isCanceled
  , sts := none }

/-- fmt.Errorf("error while reporting this error %q: %w", target.Error(), reportErr). -/
def wrapReportFail (target reportErr : GoError) : GoError :=
  { msg := "error while reporting this error " ++ goQuote target.msg ++ ": " ++ reportErr.msg
  , isCanceled := reportErr.isCanceled
  , sts := none }

/-- What one handleErr run produces: the trace of LogError/ReportError
    invocations in order, the returned error (grpcStatus.Err(), or nil on
    the early cancellation return), and a ghost flag set exactly when the
    switch's second `errors.Is(targetErr, context.Canceled)` case (the one
    producing the "context cancelled." status) is the case taken. -/
structure HandleErrResult where
  events : List ErrEvent
  ret : Option GoError
  tookSecondCancelBranch : Bool
deriving DecidableEq, Repr

/-- handleErr: log the raw error; return nil if it is a cancellation;
    otherwise classify: an application error is converted with
    ErrorToGRPCStatus (on conversion failure fall back to the generic
    internal status, log and report the wrapped conversion error, logging a
    reporting failure); a second cancellation case would produce a
    "context cancelled." status; any other error is reported (a reporting
    failure being logged) and masked with the generic internal status.
    The reporting context is the detached one-second-timeout context
    created at entry. -/
def handleErr (targetErr : GoError) (errorHandler : ErrorHandler) : HandleErrResult :=
  let ctx := detachedCtx1s
  let ev0 := [ErrEvent.logError targetErr]
  if targetErr.isCanceled then
    { events := ev0, ret := none, tookSecondCancelBranch := false }
  else if errorHandler.isApplicationError targetErr then
    match errorHandler.errorToGRPCStatus targetErr with
    | (sts, none) =>
      { events := ev0, ret := Status.err sts, tookSecondCancelBranch := false }
    | (_, some toGrpcStatusErr) =>
      let grpcStatus : Status := { code := .internal, message := "internal error." }
      let wrapped := wrapConvErr toGrpcStatusErr
      let ev1 := ev0 ++ [ErrEvent.logError wrapped, ErrEvent.reportError ctx wrapped]
      match errorHandler.reportError ctx wrapped with
      | none =>
        { events := ev1, ret := Status.err grpcStatus, tookSecondCancelBranch := false }
      | some reportErrErr =>
        { events := ev1 ++ [ErrEvent.logError (wrapReportFail wrapped reportErrErr)]
        , ret := Status.err grpcStatus
        , tookSecondCancelBranch := false }
  else if targetErr.isCanceled then
    { events := ev0
    , ret := Status.err { code := .internal, message := "context cancelled." }
    , tookSecondCancelBranch := true }
  else
    let grpcStatus : Status := { code := .internal, message := "internal error." }
    let ev1 := ev0 ++ [ErrEvent.reportError ctx targetErr]
    match errorHandler.reportError ctx targetErr with
    | some reportErr =>
      { events := ev1 ++ [ErrEvent.logError (wrapReportFail targetErr reportErr)]
      , ret := Status.err grpcStatus
      , tookSecondCancelBranch := false }
    | none =>
      { events := ev1, ret := Status.err grpcStatus, tookSecondCancelBranch := false }

/-- Number of LogError events carrying exactly the error `e`. -/
def countLogErrorWith (e : GoError) : List ErrEvent → Nat
  | [] => 0
  | ErrEvent.logError x :: rest =>
      (if x = e then 1 else 0) + countLogErrorWith e rest
  | _ :: rest => countLogErrorWith e rest

/-- Number of ReportError events (any context, any error). -/
def countReportError : List ErrEvent → Nat
  | [] => 0
  | ErrEvent.reportError _ _ :: rest => countReportError rest + 1
  | _ :: rest => countReportError rest

theorem goQuote_length (s : String) : (goQuote s).length = s.length + 2 := by
  have h1 : ("\"" : String).length = 1 := rfl
  simp only [goQuote, String.length_append, h1]
  omega

theorem wrapReportFail_ne (target reportErr : GoError) :
    wrapReportFail target reportErr ≠ target := by
  intro h
  have hm : (wrapReportFail target reportErr).msg = target.msg := congrArg GoError.msg h
  simp only [wrapReportFail] at hm
  have hl := congrArg String.length hm
  simp only [String.length_append, goQuote_length] at hl
  rw [show ("error while reporting this error " : String).length = 33 from rfl] at hl
  rw [show (": " : String).length = 2 from rfl] at hl
  omega

theorem Status_err_inj (s t : Status) (h1 : Status.err s = Status.err t)
    (h2 : t.code ≠ Code.ok) : s = t := by
  by_cases hs : s.code = Code.ok
  · simp [Status.err, hs, h2] at h1
  · simp [Status.err, hs, h2] at h1
    exact h1.2

/-- Handler used to settle claim C2: every error is an application error and
    ErrorToGRPCStatus converts it to the "context cancelled." status. -/
def c2Handler : ErrorHandler :=
  { isApplicationError := fun _ => true
  , errorToGRPCStatus := fun _ =>
      ({ code := Code.internal, message := "context cancelled." }, none)
  , reportError := fun _ _ => none }

def c2Err : GoError := { msg := "boom", isCanceled := false, sts := none }

def c2CanceledErr : GoError := { msg := "ctx", isCanceled := true, sts := none }

/-- Claim C2 counterexample: handleErr can return a status with message
    "context cancelled." — for a non-cancellation error whose caller-supplied
    ErrorToGRPCStatus conversion yields exactly that status, the converted
    status is passed through verbatim, so "handleErr never returns such a
    status for any input" is false as stated. -/
theorem claim_C2_counterexample :
    (handleErr c2Err c2Handler).ret =
      some { msg := "rpc error: code = Internal desc = context cancelled."
           , isCanceled := false
           , sts := some { code := Code.internal, message := "context cancelled." } } := by
  rfl

/-- Claim C2 (amended): for every error satisfying the cancellation predicate
    handleErr returns a nil error regardless of any other classification
    state; the later switch case producing the "context cancelled." status is
    never the case taken; and handleErr itself never constructs such a status
    — it can only be returned when the caller-supplied ErrorToGRPCStatus
    conversion produces it for an application error. -/
theorem claim_C2 (e : GoError) (h : ErrorHandler) :
    (e.isCanceled = true → (handleErr e h).ret = none) ∧
    (handleErr e h).tookSecondCancelBranch = false ∧
    ((handleErr e h).ret =
        Status.err { code := Code.internal, message := "context cancelled." } →
      h.isApplicationError e = true ∧
      h.errorToGRPCStatus e =
        ({ code := Code.internal, message := "context cancelled." }, none)) := by
  by_cases hc : e.isCanceled
  · refine ⟨fun _ => ?_, ?_, fun hret => ?_⟩
    · simp [handleErr, hc]
    · simp [handleErr, hc]
    · exfalso
      simp [handleErr, hc, Status.err] at hret
  · by_cases ha : h.isApplicationError e
    · rcases hconv : h.errorToGRPCStatus e with ⟨sts, _ | convErr⟩
      · refine ⟨fun hcan => absurd hcan (by simp [hc]), ?_, fun hret => ?_⟩
        · simp [handleErr, hc, ha, hconv]
        · have hret2 : Status.err sts =
              Status.err { code := Code.internal, message := "context cancelled." } := by
            simpa [handleErr, hc, ha, hconv] using hret
          have hsts := Status_err_inj _ _ hret2 (by decide)
          refine ⟨ha, ?_⟩
          rw [hsts]
      · refine ⟨fun hcan => absurd hcan (by simp [hc]), ?_, fun hret => ?_⟩
        · rcases hrep : h.reportError detachedCtx1s (wrapConvErr convErr) with _ | r <;>
            simp [handleErr, hc, ha, hconv, hrep]
        · exfalso
          have hret2 : Status.err { code := Code.internal, message := "internal error." } =
              Status.err { code := Code.internal, message := "context cancelled." } := by
            rcases hrep : h.reportError detachedCtx1s (wrapConvErr convErr) with _ | r <;>
              simpa [handleErr, hc, ha, hconv, hrep] using hret
          have := Status_err_inj _ _ hret2 (by decide)
          exact absurd this (by decide)
    · refine ⟨fun hcan => absurd hcan (by simp [hc]), ?_, fun hret => ?_⟩
      · rcases hrep : h.reportError detachedCtx1s e with _ | r <;>
          simp [handleErr, hc, ha, hrep]
      · exfalso
        have hret2 : Status.err { code := Code.internal, message := "internal error." } =
            Status.err { code := Code.internal, message := "context cancelled." } := by
          rcases hrep : h.reportError detachedCtx1s e with _ | r <;>
            simpa [handleErr, hc, ha, hrep] using hret
        have := Status_err_inj _ _ hret2 (by decide)
        exact absurd this (by decide)

theorem claim_C2_witness :
    (handleErr c2CanceledErr c2Handler).ret = none ∧
    (handleErr c2Err c2Handler).tookSecondCancelBranch = false ∧
    (c2Handler.isApplicationError c2Err = true ∧
      c2Handler.errorToGRPCStatus c2Err =
        ({ code := Code.internal, message := "context cancelled." }, none)) :=
  ⟨(claim_C2 c2CanceledErr c2Handler).1 rfl,
   (claim_C2 c2Err c2Handler).2.1,
   (claim_C2 c2Err c2Handler).2.2 (by rfl)⟩

/-- Claim C3: for a non-cancellation error recognized as an application error
    whose ErrorToGRPCStatus conversion succeeds, handleErr returns exactly the
    converted status (same code, same message, as the status's error form)
    and ReportError is never invoked on that path: the whole trace is the one
    initial LogError of the raw error. -/
theorem claim_C3 (e : GoError) (h : ErrorHandler) (sts : Status)
    (hc : e.isCanceled = false)
    (ha : h.isApplicationError e = true)
    (hconv : h.errorToGRPCStatus e = (sts, none)) :
    (handleErr e h).ret = Status.err sts ∧
    (handleErr e h).events = [ErrEvent.logError e] ∧
    countReportError (handleErr e h).events = 0 := by
  simp [handleErr, hc, ha, hconv, countReportError]

def c3Err : GoError := { msg := "user not found", isCanceled := false, sts := none }

def c3Status : Status := { code := Code.notFound, message := "user not found" }

def c3Handler : ErrorHandler :=
  { isApplicationError := fun _ => true
  , errorToGRPCStatus := fun _ => (c3Status, none)
  , reportError := fun _ _ => none }

theorem claim_C3_witness :
    c3Err.isCanceled = false ∧
    c3Handler.isApplicationError c3Err = true ∧
    c3Handler.errorToGRPCStatus c3Err = (c3Status, none) ∧
    ((handleErr c3Err c3Handler).ret = Status.err c3Status ∧
     (handleErr c3Err c3Handler).events = [ErrEvent.logError c3Err] ∧
     countReportError (handleErr c3Err c3Handler).events = 0) :=
  ⟨rfl, rfl, rfl, claim_C3 c3Err c3Handler c3Status rfl rfl rfl⟩

/-- Claim C4: for a non-cancellation application error whose conversion
    fails, handleErr returns the generic internal status (fixed message
    "internal error.", independent of the error), logs and then reports the
    wrapped conversion failure on the detached one-second-timeout context,
    and, exactly when that report fails, additionally logs the secondary
    reporting failure — and nothing else. -/
theorem claim_C4 (e : GoError) (h : ErrorHandler) (sts : Status) (convErr : GoError)
    (hc : e.isCanceled = false)
    (ha : h.isApplicationError e = true)
    (hconv : h.errorToGRPCStatus e = (sts, some convErr)) :
    (handleErr e h).ret =
      Status.err { code := Code.internal, message := "internal error." } ∧
    (handleErr e h).events =
      [ErrEvent.logError e,
       ErrEvent.logError (wrapConvErr convErr),
       ErrEvent.reportError detachedCtx1s (wrapConvErr convErr)] ++
      (match h.reportError detachedCtx1s (wrapConvErr convErr) with
       | none => []
       | some r => [ErrEvent.logError (wrapReportFail (wrapConvErr convErr) r)]) := by
  rcases hrep : h.reportError detachedCtx1s (wrapConvErr convErr) with _ | r <;>
    simp [handleErr, hc, ha, hconv, hrep]

def c4Err : GoError := { msg := "app failure", isCanceled := false, sts := none }

def c4ConvErr : GoError := { msg := "conversion exploded", isCanceled := false, sts := none }

def c4ReportErr : GoError := { msg := "reporter down", isCanceled := false, sts := none }

def c4Handler : ErrorHandler :=
  { isApplicationError := fun _ => true
  , errorToGRPCStatus := fun _ => ({ code := Code.notFound, message := "x" }, some c4ConvErr)
  , reportError := fun _ _ => some c4ReportErr }

theorem claim_C4_witness :
    c4Err.isCanceled = false ∧
    c4Handler.isApplicationError c4Err = true ∧
    c4Handler.errorToGRPCStatus c4Err =
      ({ code := Code.notFound, message := "x" }, some c4ConvErr) ∧
    (handleErr c4Err c4Handler).ret =
      Status.err { code := Code.internal, message := "internal error." } :=
  ⟨rfl, rfl, rfl, (claim_C4 c4Err c4Handler _ c4ConvErr rfl rfl rfl).1⟩

/-- fmt.Errorf("%q: %w", path.Base(info.FullMethod), err): the error the
    classifier interceptor hands to handleErr, prefixed with the quoted
    short method name (the %w wrap preserves the cancellation predicate and
    hides any directly exposed status). -/
def wrapMethodErr (fullMethod : String) (e : GoError) : GoError :=
  { msg := goQuote (pathBase fullMethod) ++ ": " ++ e.msg
  , isCanceled := e.isCanceled
  , sts := none }

/-- What the error-classifier interceptor returns to its own caller
    (response, error) together with the classifier trace it produced. -/
structure InterceptResult (α : Type) where
  resp : Option α
  err : Option GoError
  events : List ErrEvent

/-- The unary interceptor installed by prependErrorHandler: the downstream
    handler's result is passed in as handlerResp/handlerErr; on a nil error
    the response is passed through untouched with no classifier activity; on
    an error the response is discarded and the interceptor returns nil
    together with handleErr applied to the method-prefixed error. -/
def errorHandlerInterceptor {α : Type} (h : ErrorHandler) (fullMethod : String)
    (handlerResp : Option α) (handlerErr : Option GoError) : InterceptResult α :=
  match handlerErr with
  | none => { resp := handlerResp, err := none, events := [] }
  | some e =>
    let r := handleErr (wrapMethodErr fullMethod e) h
    { resp := none, err := r.ret, events := r.events }

/-- Claim C5: for a non-cancellation error that the ErrorHandler does not
    recognize as an application error, the classifier logs the
    method-prefixed original error exactly once, as its first action; it
    reports that same error on the detached one-second-timeout context; and
    whatever the report outcome, the caller gets the generic internal status
    whose message is the fixed constant "internal error.". -/
theorem claim_C5 (α : Type) (h : ErrorHandler) (fullMethod : String)
    (handlerResp : Option α) (e : GoError)
    (hc : e.isCanceled = false)
    (ha : h.isApplicationError (wrapMethodErr fullMethod e) = false) :
    countLogErrorWith (wrapMethodErr fullMethod e)
        (errorHandlerInterceptor h fullMethod handlerResp (some e)).events = 1 ∧
    (errorHandlerInterceptor h fullMethod handlerResp (some e)).events.head? =
      some (ErrEvent.logError (wrapMethodErr fullMethod e)) ∧
    ErrEvent.reportError detachedCtx1s (wrapMethodErr fullMethod e) ∈
      (errorHandlerInterceptor h fullMethod handlerResp (some e)).events ∧
    (errorHandlerInterceptor h fullMethod handlerResp (some e)).err =
      Status.err { code := Code.internal, message := "internal error." } := by
  have hwc : (wrapMethodErr fullMethod e).isCanceled = false := hc
  rcases hrep : h.reportError detachedCtx1s (wrapMethodErr fullMethod e) with _ | r <;>
    simp [errorHandlerInterceptor, handleErr, hwc, ha, hrep, countLogErrorWith,
      wrapReportFail_ne]

def c5Err : GoError := { msg := "db down", isCanceled := false, sts := none }

def c5Handler : ErrorHandler :=
  { isApplicationError := fun _ => false
  , errorToGRPCStatus := fun _ => ({ code := Code.internal, message := "unused" }, none)
  , reportError := fun _ _ => none }

theorem claim_C5_witness :
    c5Err.isCanceled = false ∧
    c5Handler.isApplicationError (wrapMethodErr "/svc.Users/Get" c5Err) = false ∧
    (countLogErrorWith (wrapMethodErr "/svc.Users/Get" c5Err)
        (errorHandlerInterceptor c5Handler "/svc.Users/Get"
          (some (3 : Nat)) (some c5Err)).events = 1 ∧
     (errorHandlerInterceptor c5Handler "/svc.Users/Get"
          (some (3 : Nat)) (some c5Err)).events.head? =
       some (ErrEvent.logError (wrapMethodErr "/svc.Users/Get" c5Err)) ∧
     ErrEvent.reportError detachedCtx1s (wrapMethodErr "/svc.Users/Get" c5Err) ∈
       (errorHandlerInterceptor c5Handler "/svc.Users/Get"
          (some (3 : Nat)) (some c5Err)).events ∧
     (errorHandlerInterceptor c5Handler "/svc.Users/Get"
          (some (3 : Nat)) (some c5Err)).err =
       Status.err { code := Code.internal, message := "internal error." }) :=
  ⟨rfl, rfl, claim_C5 Nat c5Handler "/svc.Users/Get" (some 3) c5Err rfl rfl⟩

/-- Claim C10: whenever the downstream handler produces a non-nil error, the
    classifier interceptor discards the handler's response and returns nil
    for it; and when that error satisfies the cancellation predicate the
    caller receives both a nil response and a nil error. -/
theorem claim_C10 (α : Type) (h : ErrorHandler) (fullMethod : String)
    (handlerResp : Option α) (e : GoError) :
    (errorHandlerInterceptor h fullMethod handlerResp (some e)).resp = none ∧
    (e.isCanceled = true →
      (errorHandlerInterceptor h fullMethod handlerResp (some e)).err = none) := by
  constructor
  · rfl
  · intro hcan
    have hwc : (wrapMethodErr fullMethod e).isCanceled = true := hcan
    simp [errorHandlerInterceptor, handleErr, hwc]

def c10Err : GoError := { msg := "context canceled", isCanceled := true, sts := none }

def c10Handler : ErrorHandler :=
  { isApplicationError := fun _ => false
  , errorToGRPCStatus := fun _ => ({ code := Code.internal, message := "unused" }, none)
  , reportError := fun _ _ => none }

theorem claim_C10_witness :
    (errorHandlerInterceptor c10Handler "/svc.Users/Get"
        (some (7 : Nat)) (some c10Err)).resp = none ∧
    c10Err.isCanceled = true ∧
    (errorHandlerInterceptor c10Handler "/svc.Users/Get"
        (some (7 : Nat)) (some c10Err)).err = none :=
  ⟨(claim_C10 Nat c10Handler "/svc.Users/Get" (some 7) c10Err).1, rfl,
   (claim_C10 Nat c10Handler "/svc.Users/Get" (some 7) c10Err).2 rfl⟩

/- ### Panic recovery (newRecoveryFunc, lines 236-259) -/

/-- One observable action of the panic recovery function: a LogPanic call,
    a ReportPanic call (with the context it was given), or a LogError call. -/
inductive PanicEvent
  | logPanic (p : String)
  | reportPanic (ctx : ReportCtx) (p : String)
  | logError (e : GoError)
deriving DecidableEq, Repr

/-- The PanicHandler capability, as the pure behavior of ReportPanic (the
    error it returns, nil on success); LogPanic and LogError have no return
    value and are recorded in the trace.  Panic payloads are modelled as
    strings. -/
structure PanicHandler where
  reportPanic : ReportCtx → String → Option GoError

/-- fmt.Errorf("error while reporting panic %q: %w", p, reportPanicErr). -/
def wrapPanicReportFail (p : String) (reportPanicErr : GoError) : GoError :=
  { msg := "error while reporting panic " ++ goQuote p ++ ": " ++ reportPanicErr.msg
  , isCanceled := reportPanicErr.isCanceled
  , sts := none }

/-- What one run of the recovery function produces: its trace and the error
    it returns to the recovery middleware (and thus to the caller). -/
structure RecoveryResult where
  events : List PanicEvent
  ret : Option GoError
deriving DecidableEq, Repr

/-- newRecoveryFunc: on a recovered panic p, create a context with a fixed
    one-second timeout derived from context.Background(), log the panic
    value, report it with that context, log a reporting failure if ReportPanic
    returns an error, and in every case return the fixed masked status
    error Internal/"internal error.". -/
def newRecoveryFunc (panicHandler : PanicHandler) (p : String) : RecoveryResult :=
  let ctx := detachedCtx1s
  let ev0 := [PanicEvent.logPanic p, PanicEvent.reportPanic ctx p]
  match panicHandler.reportPanic ctx p with
  | none =>
    { events := ev0
    , ret := Status.err { code := .internal, message := "internal error." } }
  | some reportPanicErr =>
    { events := ev0 ++ [PanicEvent.logError (wrapPanicReportFail p reportPanicErr)]
    , ret := Status.err { code := .internal, message := "internal error." } }

/-- Number of LogPanic events carrying exactly the payload `p`. -/
def countLogPanic (p : String) : List PanicEvent → Nat
  | [] => 0
  | PanicEvent.logPanic q :: rest =>
      (if q = p then 1 else 0) + countLogPanic p rest
  | _ :: rest => countLogPanic p rest

/-- Number of ReportPanic events (any context, any payload). -/
def countReportPanic : List PanicEvent → Nat
  | [] => 0
  | PanicEvent.reportPanic _ _ :: rest => countReportPanic rest + 1
  | _ :: rest => countReportPanic rest

/-- Claim C6: the recovery function logs the panic value first and exactly
    once, then invokes ReportPanic exactly once, with a fresh context derived
    from the background context carrying the fixed one-second timeout; a
    ReportPanic failure is only logged (the trace ends with that LogError
    and nothing else); and in every case the returned error is the single
    fixed masked status Internal/"internal error.", which never depends on
    the panic payload. -/
theorem claim_C6 (panicHandler : PanicHandler) (p : String) :
    (newRecoveryFunc panicHandler p).events.head? = some (PanicEvent.logPanic p) ∧
    countLogPanic p (newRecoveryFunc panicHandler p).events = 1 ∧
    countReportPanic (newRecoveryFunc panicHandler p).events = 1 ∧
    (newRecoveryFunc panicHandler p).events.take 2 =
      [PanicEvent.logPanic p, PanicEvent.reportPanic detachedCtx1s p] ∧
    (newRecoveryFunc panicHandler p).ret =
      Status.err { code := Code.internal, message := "internal error." } ∧
    (panicHandler.reportPanic detachedCtx1s p = none →
      (newRecoveryFunc panicHandler p).events =
        [PanicEvent.logPanic p, PanicEvent.reportPanic detachedCtx1s p]) ∧
    (∀ r, panicHandler.reportPanic detachedCtx1s p = some r →
      (newRecoveryFunc panicHandler p).events =
        [PanicEvent.logPanic p, PanicEvent.reportPanic detachedCtx1s p,
         PanicEvent.logError (wrapPanicReportFail p r)]) := by
  rcases hrep : panicHandler.reportPanic detachedCtx1s p with _ | r <;>
    simp [newRecoveryFunc, hrep, countLogPanic, countReportPanic]

def c6SentryErr : GoError := { msg := "sentry down", isCanceled := false, sts := none }

def c6FailingHandler : PanicHandler := { reportPanic := fun _ _ => some c6SentryErr }

def c6OkHandler : PanicHandler := { reportPanic := fun _ _ => none }

theorem claim_C6_witness :
    c6OkHandler.reportPanic detachedCtx1s "boom" = none ∧
    (newRecoveryFunc c6OkHandler "boom").events =
      [PanicEvent.logPanic "boom", PanicEvent.reportPanic detachedCtx1s "boom"] ∧
    c6FailingHandler.reportPanic detachedCtx1s "boom" = some c6SentryErr ∧
    (newRecoveryFunc c6FailingHandler "boom").events =
      [PanicEvent.logPanic "boom", PanicEvent.reportPanic detachedCtx1s "boom",
       PanicEvent.logError (wrapPanicReportFail "boom" c6SentryErr)] ∧
    (newRecoveryFunc c6FailingHandler "boom").ret =
      Status.err { code := Code.internal, message := "internal error." } :=
  ⟨rfl,
   (claim_C6 c6OkHandler "boom").2.2.2.2.2.1 rfl,
   rfl,
   (claim_C6 c6FailingHandler "boom").2.2.2.2.2.2 c6SentryErr rfl,
   (claim_C6 c6FailingHandler "boom").2.2.2.2.1⟩

/- ### Debug logging interceptor (prependDebugInterceptor, lines 167-227) -/

/-- One structured zap field of a debug log entry.  Request payloads are
    modelled as strings, so zap.Any("request", req) carries the payload
    string; zap.Error carries the error value; zap.Duration carries the
    elapsed monotonic-clock difference. -/
inductive Field
  | str (key val : String)
  | any (key val : String)
  | errField (e : GoError)
  | dur (key : String) (d : Int)
deriving DecidableEq, Repr

/-- A structured debug log entry: message plus fields in order. -/
structure LogEntry where
  msg : String
  fields : List Field
deriving DecidableEq, Repr

/-- One observable action of the debug interceptor: emitting a log entry or
    invoking the downstream handler. -/
inductive DebugEvent
  | log (entry : LogEntry)
  | callHandler (req : String)
deriving DecidableEq, Repr

/-- The per-call environment the debug interceptor reads: info.FullMethod,
    the request ID recovered from the call's context (none when
    grpcutils.GetRequestIDFromCtx fails — modelled from the spec, the
    grpcutils package is not among the reviewed files), and the two
    monotonic-clock readings taken by time.Now() at entry and by
    time.Since(start) at completion. -/
structure CallEnv where
  fullMethod : String
  requestID : Option String
  startTime : Int
  endTime : Int
deriving DecidableEq, Repr

/-- The nil-UUID sentinel substituted when no request ID is in the context. -/
def nilRequestID : String := "00000000-0000-0000-0000-000000000000"

/-- The unary interceptor installed by prependDebugInterceptor: for the
    probe methods "Check" and "Watch" (exact match on the short method name)
    just invoke the handler; otherwise resolve the request ID (sentinel on
    failure), emit the "request started" entry, invoke the handler, and emit
    one completion entry that on error additionally carries the request
    payload and the error.  The handler's response and error are returned
    unchanged. -/
def debugInterceptor (env : CallEnv) (req : String)
    (handler : String → Option String × Option GoError) :
    (Option String × Option GoError) × List DebugEvent :=
  let method := pathBase env.fullMethod
  if method = "Check" ∨ method = "Watch" then
    (handler req, [DebugEvent.callHandler req])
  else
    let requestID :=
      match env.requestID with
      | some id => id
      | none => nilRequestID
    let startedEntry : LogEntry :=
      { msg := "request started"
      , fields := [Field.str "trace_id" requestID, Field.str "method" method] }
    let result := handler req
    let code := statusCode result.2
    match result.2 with
    | some e =>
      ((result.1, some e),
       [DebugEvent.log startedEntry, DebugEvent.callHandler req,
        DebugEvent.log
          { msg := "request completed with error"
          , fields :=
              [Field.str "trace_id" requestID, Field.str "method" method,
               Field.any "request" req, Field.errField e,
               Field.str "code" (codeString code),
               Field.dur "duration" (env.endTime - env.startTime)] }])
    | none =>
      ((result.1, none),
       [DebugEvent.log startedEntry, DebugEvent.callHandler req,
        DebugEvent.log
          { msg := "request completed successfully"
          , fields :=
              [Field.str "trace_id" requestID, Field.str "method" method,
               Field.str "code" (codeString code),
               Field.dur "duration" (env.endTime - env.startTime)] }])

/-- The log entries among a debug trace, in emission order. -/
def debugLogEntries : List DebugEvent → List LogEntry
  | [] => []
  | DebugEvent.log en :: rest => en :: debugLogEntries rest
  | _ :: rest => debugLogEntries rest

/-- Number of downstream handler invocations in a debug trace. -/
def countHandlerCalls : List DebugEvent → Nat
  | [] => 0
  | DebugEvent.callHandler _ :: rest => countHandlerCalls rest + 1
  | _ :: rest => countHandlerCalls rest

/-- Claim C7: for a call whose short method name is exactly "Check" or
    "Watch" the debug interceptor emits no log entry yet still invokes the
    downstream handler exactly once; for every other method it emits exactly
    one "request started" entry (request ID and method) before the handler
    invocation and exactly one completion entry after it, carrying request
    ID, method, resulting status code and the elapsed duration, which is
    non-negative whenever the clock readings are monotone; on an error
    result the completion entry additionally carries the request payload and
    the error. -/
theorem claim_C7 (env : CallEnv) (req : String)
    (handler : String → Option String × Option GoError) :
    ((pathBase env.fullMethod = "Check" ∨ pathBase env.fullMethod = "Watch") →
      debugLogEntries (debugInterceptor env req handler).2 = [] ∧
      countHandlerCalls (debugInterceptor env req handler).2 = 1) ∧
    (¬(pathBase env.fullMethod = "Check" ∨ pathBase env.fullMethod = "Watch") →
      env.startTime ≤ env.endTime →
      (debugInterceptor env req handler).2 =
        [DebugEvent.log
          { msg := "request started"
          , fields :=
              [Field.str "trace_id"
                (match env.requestID with
                 | some id => id
                 | none => nilRequestID),
               Field.str "method" (pathBase env.fullMethod)] },
         DebugEvent.callHandler req,
         DebugEvent.log
          (match (handler req).2 with
           | some e =>
             { msg := "request completed with error"
             , fields :=
                 [Field.str "trace_id"
                   (match env.requestID with
                    | some id => id
                    | none => nilRequestID),
                  Field.str "method" (pathBase env.fullMethod),
                  Field.any "request" req, Field.errField e,
                  Field.str "code" (codeString (statusCode (handler req).2)),
                  Field.dur "duration" (env.endTime - env.startTime)] }
           | none =>
             { msg := "request completed successfully"
             , fields :=
                 [Field.str "trace_id"
                   (match env.requestID with
                    | some id => id
                    | none => nilRequestID),
                  Field.str "method" (pathBase env.fullMethod),
                  Field.str "code" (codeString (statusCode (handler req).2)),
                  Field.dur "duration" (env.endTime - env.startTime)] })] ∧
      0 ≤ env.endTime - env.startTime) := by
  constructor
  · intro hm
    simp [debugInterceptor, hm]
    rcases handler req with ⟨resp, _ | e⟩ <;>
      simp [debugLogEntries, countHandlerCalls]
  · intro hm ht
    refine ⟨?_, by omega⟩
    rcases hres : handler req with ⟨resp, _ | e⟩ <;>
      simp [debugInterceptor, hm, hres]

/-- Claim C8: the debug interceptor is observation-only — the (response,
    error) pair it returns is exactly the downstream handler's result. -/
theorem claim_C8 (env : CallEnv) (req : String)
    (handler : String → Option String × Option GoError) :
    (debugInterceptor env req handler).1 = handler req := by
  by_cases hm : pathBase env.fullMethod = "Check" ∨ pathBase env.fullMethod = "Watch"
  · simp [debugInterceptor, hm]
  · rcases hres : handler req with ⟨resp, _ | e⟩ <;>
      simp [debugInterceptor, hm, hres]

def c7ProbeEnv : CallEnv :=
  { fullMethod := "/grpc.health.v1.Health/Check"
  , requestID := some "req-1"
  , startTime := 5
  , endTime := 9 }

def c7Env : CallEnv :=
  { fullMethod := "/svc.Users/GetUser"
  , requestID := none
  , startTime := 5
  , endTime := 9 }

def c7Err : GoError :=
  { msg := "lookup failed", isCanceled := false
  , sts := some { code := Code.notFound, message := "lookup failed" } }

def c7Handler (_req : String) : Option String × Option GoError :=
  (none, some c7Err)

theorem claim_C7_witness :
    (pathBase c7ProbeEnv.fullMethod = "Check" ∨
      pathBase c7ProbeEnv.fullMethod = "Watch") ∧
    (debugLogEntries (debugInterceptor c7ProbeEnv "payload" c7Handler).2 = [] ∧
     countHandlerCalls (debugInterceptor c7ProbeEnv "payload" c7Handler).2 = 1) ∧
    ¬(pathBase c7Env.fullMethod = "Check" ∨ pathBase c7Env.fullMethod = "Watch") ∧
    c7Env.startTime ≤ c7Env.endTime ∧
    ((debugInterceptor c7Env "payload" c7Handler).2 =
      [DebugEvent.log
        { msg := "request started"
        , fields := [Field.str "trace_id" nilRequestID,
                     Field.str "method" "GetUser"] },
       DebugEvent.callHandler "payload",
       DebugEvent.log
        { msg := "request completed with error"
        , fields := [Field.str "trace_id" nilRequestID,
                     Field.str "method" "GetUser",
                     Field.any "request" "payload", Field.errField c7Err,
                     Field.str "code" "NotFound",
                     Field.dur "duration" 4] }] ∧
     (0 : Int) ≤ c7Env.endTime - c7Env.startTime) := by
  refine ⟨by decide, (claim_C7 c7ProbeEnv "payload" c7Handler).1 (by decide),
    by decide, by decide, ?_⟩
  have h := (claim_C7 c7Env "payload" c7Handler).2 (by decide) (by decide)
  refine ⟨?_, h.2⟩
  rw [h.1]
  rfl

/- ### Listener resolver (newGRPCListener, lines 141-165) -/

/-- Index of the first occurrence of a character, if any. -/
def indexOfChar (c : Char) : List Char → Option Nat
  | [] => none
  | d :: rest => if d = c then some 0 else (indexOfChar c rest).map (fun n => n + 1)

/-- Index of the last occurrence of a character, if any. -/
def lastIndexOfChar (c : Char) (cs : List Char) : Option Nat :=
  match indexOfChar c cs.reverse with
  | none => none
  | some j => some (cs.length - 1 - j)

/-- Go net.SplitHostPort: split "host:port" (or "[host]:port") around the
    last colon, diagnosing a missing port, stray colons and brackets with
    the stdlib's error messages; on success yield (host, port). -/
def splitHostPort (hostport : String) : Except String (String × String) :=
  let cs := hostport.toList
  match lastIndexOfChar ':' cs with
  | none => .error "missing port in address"
  | some i =>
    match cs with
    | [] => .error "missing port in address"
    | c0 :: _ =>
      if c0 = '[' then
        match indexOfChar ']' cs with
        | none => .error "missing ']' in address"
        | some e =>
          if e + 1 = cs.length then .error "missing port in address"
          else if e + 1 = i then
            if (cs.drop 1).contains '[' then .error "unexpected '[' in address"
            else if (cs.drop (e + 1)).contains ']' then
              .error "unexpected ']' in address"
            else .ok (String.mk ((cs.drop 1).take (e - 1)), String.mk (cs.drop (i + 1)))
          else
            if cs[e + 1]? = some ':' then .error "too many colons in address"
            else .error "missing port in address"
      else
        if (cs.take i).contains ':' then .error "too many colons in address"
        else if cs.contains '[' then .error "unexpected '[' in address"
        else if cs.contains ']' then .error "unexpected ']' in address"
        else .ok (String.mk (cs.take i), String.mk (cs.drop (i + 1)))

/-- Accumulate base-10 digits; none as soon as a non-digit appears. -/
def parseDigitsAux (acc : Nat) : List Char → Option Nat
  | [] => some acc
  | c :: rest =>
      if c.isDigit then parseDigitsAux (10 * acc + (c.toNat - 48)) rest
      else none

/-- Go strconv.Atoi: optional sign, then at least one base-10 digit and
    nothing else, within the 64-bit signed integer range. -/
def atoi (s : String) : Except String Int :=
  let syntaxErr := "strconv.Atoi: parsing " ++ goQuote s ++ ": invalid syntax"
  let rangeErr := "strconv.Atoi: parsing " ++ goQuote s ++ ": value out of range"
  let signDigits : Bool × List Char :=
    match s.toList with
    | '+' :: rest => (false, rest)
    | '-' :: rest => (true, rest)
    | cs => (false, cs)
  match signDigits with
  | (neg, digits) =>
    if digits.isEmpty then .error syntaxErr
    else
      match parseDigitsAux 0 digits with
      | none => .error syntaxErr
      | some n =>
        if neg then
          if n ≤ 2 ^ 63 then .ok (-(n : Int)) else .error rangeErr
        else
          if n ≤ 2 ^ 63 - 1 then .ok (n : Int) else .error rangeErr

/-- A net.Listener as this code can observe it: either the externally
    supplied one, or a fresh one identified by the network and address it
    was asked to bind. -/
inductive Listener
  | supplied (id : Nat)
  | fresh (network : String) (addr : String)
deriving DecidableEq, Repr

/-- net.Listen: binds a fresh listener on the requested network and
    address (an OS-level bind failure is outside the model). -/
def netListen (network addr : String) : Except String Listener :=
  .ok (Listener.fresh network addr)

/-- net.AddrError rendering: "address " + Addr + ": " + Err. -/
def addrErrorMsg (addr msg : String) : String :=
  "address " ++ addr ++ ": " ++ msg

/-- newGRPCListener: reuse a supplied listener unchanged; otherwise split
    the address into host and port, fail on a malformed address or
    non-numeric port, and bind tcp on fmt.Sprintf("%s:%d", host, port-1). -/
def newGRPCListener (defaultListener : Option Listener) (addr : String) :
    Except String Listener :=
  match defaultListener with
  | some l => .ok l
  | none =>
    match splitHostPort addr with
    | .error m => .error ("invalid address: " ++ addrErrorMsg addr m)
    | .ok (hostString, portString) =>
      match atoi portString with
      | .error m => .error ("parse port: " ++ m)
      | .ok port =>
        match netListen "tcp" (hostString ++ ":" ++ toString (port - 1)) with
        | .error m => .error ("new net listener: " ++ m)
        | .ok listener => .ok listener

/-- Claim C9: a supplied listener is returned unchanged; with no listener
    the configured address is split into host and port, a malformed address
    or non-numeric port is an error, and otherwise a fresh tcp listener is
    bound on the same host at port minus one; in particular address
    "0.0.0.0:9090" with no supplied listener binds "0.0.0.0:9089". -/
theorem claim_C9 :
    (∀ (l : Listener) (addr : String), newGRPCListener (some l) addr = .ok l) ∧
    (∀ (addr m : String), splitHostPort addr = .error m →
      newGRPCListener none addr =
        .error ("invalid address: " ++ addrErrorMsg addr m)) ∧
    (∀ (addr host port m : String), splitHostPort addr = .ok (host, port) →
      atoi port = .error m →
      newGRPCListener none addr = .error ("parse port: " ++ m)) ∧
    (∀ (addr host port : String) (n : Int), splitHostPort addr = .ok (host, port) →
      atoi port = .ok n →
      newGRPCListener none addr =
        .ok (Listener.fresh "tcp" (host ++ ":" ++ toString (n - 1)))) ∧
    newGRPCListener none "0.0.0.0:9090" = .ok (Listener.fresh "tcp" "0.0.0.0:9089") := by
  refine ⟨fun l addr => rfl,
    fun addr m h1 => by simp [newGRPCListener, h1],
    fun addr host port m h1 h2 => by simp [newGRPCListener, h1, h2],
    fun addr host port n h1 h2 => by simp [newGRPCListener, netListen, h1, h2],
    ?_⟩
  rfl

theorem claim_C9_witness :
    newGRPCListener (some (Listener.supplied 0)) "whatever" =
      .ok (Listener.supplied 0) ∧
    splitHostPort "nocolon" = .error "missing port in address" ∧
    newGRPCListener none "nocolon" =
      .error ("invalid address: " ++ addrErrorMsg "nocolon" "missing port in address") ∧
    splitHostPort "0.0.0.0:http" = .ok ("0.0.0.0", "http") ∧
    atoi "http" = .error "strconv.Atoi: parsing \"http\": invalid syntax" ∧
    newGRPCListener none "0.0.0.0:http" =
      .error ("parse port: " ++ "strconv.Atoi: parsing \"http\": invalid syntax") ∧
    splitHostPort "0.0.0.0:9090" = .ok ("0.0.0.0", "9090") ∧
    atoi "9090" = .ok 9090 ∧
    newGRPCListener none "0.0.0.0:9090" =
      .ok (Listener.fresh "tcp" ("0.0.0.0" ++ ":" ++ toString ((9090 : Int) - 1))) :=
  ⟨claim_C9.1 (Listener.supplied 0) "whatever",
   rfl,
   claim_C9.2.1 "nocolon" "missing port in address" rfl,
   rfl, rfl,
   claim_C9.2.2.1 "0.0.0.0:http" "0.0.0.0" "http" _ rfl rfl,
   rfl, rfl,
   claim_C9.2.2.2.1 "0.0.0.0:9090" "0.0.0.0" "9090" 9090 rfl rfl⟩

end GoCommonsGRPC
